import Mathlib

/-!
Verification of the `runtime` RPC framework's transport adapters.

This file shallowly embeds the two transport adapters of the repository —
the AWS API Gateway Lambda wrapper (`rpcservice/wrap_api_gateway_http.go`)
and the local development HTTP server (`devserver/devserver.go`) — and
proves properties of error classification, status mapping, identity-claims
extraction, and response rendering.

Types and constants the adapters use that live in packages outside the
embedded sources (the `hand` error package, the `runtime` error-code
constants, and the identity-provider hook type) are modelled from the
specification and marked as such in their doc comments.
-/

namespace Runtime

/-- Modelled from the spec: the `hand.E` classified-error type from the
`hand` package (not under `src/`), per the spec's data model: `code`
(machine-readable classification string), optional `message`, optional
scalar `metadata` map. -/
structure E where
  code : String
  message : String := ""
  meta : List (String × String) := []
deriving DecidableEq

/-- Modelled from the spec: `hand.New(code)` constructs a classified error
with the given code and no message or metadata. -/
def handNew (code : String) : E := { code := code }

/-- Modelled from the spec: the error-code constants of the `runtime`
package (not under `src/`); a closed set of distinct snake_case string
codes: BadRequest, InvalidBody, SchemaFailure, MissingBody, Forbidden,
NoAuthentication, InvalidAuthentication, Unknown, InvalidToken. -/
def ErrCodeBadRequest : String := "bad_request"

def ErrCodeInvalidBody : String := "invalid_body"

def ErrCodeSchemaFailure : String := "schema_failure"

def ErrCodeMissingBody : String := "missing_body"

def ErrCodeForbidden : String := "forbidden"

def ErrCodeNoAuthentication : String := "no_authentication"

def ErrCodeInvalidAuthentication : String := "invalid_authentication"

def ErrCodeUnknown : String := "unknown"

def ErrCodeInvalidToken : String := "invalid_token"

/-- A Go `error` value as seen at the transport boundary: either a
classified `hand.E` error, or any other (plain, internal) error carrying
its internal text. -/
inductive GoErr where
  | handE (e : E)
  | plain (text : String)
deriving DecidableEq

/-- A dynamic Go value (`interface{}`), as found in the authorizer
payload `map[string]interface{}`. -/
inductive GoVal where
  | vNull
  | vBool (b : Bool)
  | vNum (n : Int)
  | vStr (s : String)
  | vList (xs : List GoVal)
  | vMap (entries : List (String × GoVal))

/-- Go map lookup `m[k]` on an association-list model of
`map[string]interface{}` (keys unique in a Go map; first match). -/
def lookupVal (m : List (String × GoVal)) (k : String) : Option GoVal :=
  match m with
  | [] => none
  | (k1, v) :: rest => if k1 = k then some v else lookupVal rest k

/-- Go type assertion `x.(string)` on a possibly-absent value. -/
def asString : Option GoVal → Option String
  | some (.vStr s) => some s
  | _ => none

/-- Go type assertion `x.(map[string]interface{})` on a possibly-absent value. -/
def asMap : Option GoVal → Option (List (String × GoVal))
  | some (.vMap m) => some m
  | _ => none

/-- Go type assertion `x.([]interface{})` on a possibly-absent value. -/
def asList : Option GoVal → Option (List GoVal)
  | some (.vList xs) => some xs
  | _ => none

/-- Modelled from the spec: the `auth.Claims` identity record from the
`auth` package (not under `src/`): id, subject, issuer, audience, scopes,
version, with zero-value defaults. -/
structure Claims where
  id : String := ""
  version : String := ""
  issuer : String := ""
  subject : String := ""
  audience : List String := []
  scopes : List String := []
deriving DecidableEq

/-- Go `strings.Trim(s, cutset)` on character lists: removes leading and
trailing characters contained in `cutset`. -/
def trimCutset (cut : List Char) (s : List Char) : List Char :=
  ((s.dropWhile (fun c => cut.contains c)).reverse.dropWhile
    (fun c => cut.contains c)).reverse

/-- Go `strings.Split(s, sep)` for a single-character separator, on
character lists: splits around every occurrence of `sep`; the empty
string splits to one empty field. -/
def splitOnChar (sep : Char) : List Char → List (List Char)
  | [] => [[]]
  | c :: rest =>
    match splitOnChar sep rest with
    | [] => [[]]
    | acc :: accs =>
      if c = sep then [] :: acc :: accs else (c :: acc) :: accs

/-- Go `strings.Trim` lifted to `String`. -/
def goTrim (s : String) (cut : String) : String :=
  String.mk (trimCutset cut.toList s.toList)

/-- Go `strings.Split` (single-character separator) lifted to `String`. -/
def goSplit (s : String) (sep : Char) : List String :=
  (splitOnChar sep s.toList).map String.mk

/-- Embedding of `createAuthIdentity` from `rpcservice/wrap_api_gateway_http.go`
(lines 135-167): best-effort projection of the API Gateway authorizer
payload into `auth.Claims`. Returns the claims and the (always-nil)
error, mirroring the Go signature `(auth.Claims, error)`. -/
def createAuthIdentity (authdata : List (String × GoVal)) :
    Claims × Option String :=
  let identity : Claims := {}
  match asMap (lookupVal authdata "claims") with
  | none => (identity, none)
  | some claims =>
    let identity :=
      match asString (lookupVal claims "jti") with
      | some jti => { identity with id := jti }
      | none => identity
    let identity :=
      match asString (lookupVal claims "v") with
      | some version => { identity with version := version }
      | none => identity
    let identity :=
      match asString (lookupVal claims "iss") with
      | some issuer => { identity with issuer := issuer }
      | none => identity
    let identity :=
      match asString (lookupVal claims "sub") with
      | some sub => { identity with subject := sub }
      | none => identity
    let identity :=
      match asString (lookupVal claims "aud") with
      | some aud => { identity with audience := goSplit (goTrim aud "[]") ' ' }
      | none => identity
    let identity :=
      match asList (lookupVal authdata "scopes") with
      | some scopes =>
        { identity with
            scopes := scopes.filterMap fun sc =>
              match sc with
              | .vStr scStr => some scStr
              | _ => none }
      | none => identity
    (identity, none)

/-- JSON serialization of a classified error, modelled from the spec's
wire shape `\x7b"code": string, "message"?: string, "metadata"?: object\x7d`
(the `hand` package's marshaller is not under `src/`); optional fields
are omitted when empty. Marshalling a `hand.E` (plain string fields)
never fails. -/
def marshalE (e : E) : String :=
  "\x7b\"code\":\"" ++ e.code ++ "\""
    ++ (if e.message = "" then ""
        else ",\"message\":\"" ++ e.message ++ "\"")
    ++ (if e.meta = [] then ""
        else ",\"metadata\":" ++ "\x7b"
          ++ String.intercalate ","
              (e.meta.map fun kv => "\"" ++ kv.1 ++ "\":\"" ++ kv.2 ++ "\"")
          ++ "\x7d")
    ++ "\x7d"

/-- The `events.APIGatewayProxyResponse` record as built by the wrapper (the fields
it sets: status code, body, base64 flag, headers). -/
structure APIGatewayProxyResponse where
  statusCode : Nat
  body : String
  isBase64Encoded : Bool := false
  headers : List (String × String) := []
deriving DecidableEq

/-- The status chosen by the `switch handErr.Code` in
`apiGatewayErrorResponse` (`wrap_api_gateway_http.go` lines 97-117):
the four bad-request codes fall through to 400, Forbidden to 403, the
two authentication codes to 401, and the default arm gives 500. -/
def apiGatewayStatusOf (code : String) : Nat :=
  if code = ErrCodeBadRequest ∨ code = ErrCodeInvalidBody
      ∨ code = ErrCodeSchemaFailure ∨ code = ErrCodeMissingBody then
    400
  else if code = ErrCodeForbidden then
    403
  else if code = ErrCodeNoAuthentication
      ∨ code = ErrCodeInvalidAuthentication then
    401
  else
    500

/-- Embedding of `apiGatewayErrorResponse` (`wrap_api_gateway_http.go` lines 92-133):
a `hand.E` error is serialized with the status from its code's switch
arm; any other error yields 500 with a fresh `hand.New(ErrCodeUnknown)`
body. -/
def apiGatewayErrorResponse (err : GoErr) : APIGatewayProxyResponse :=
  match err with
  | .handE handErr =>
    { statusCode := apiGatewayStatusOf handErr.code
      body := marshalE handErr
      isBase64Encoded := false
      headers := [("Content-Type", "application/json; charset=utf-8")] }
  | .plain _ =>
    { statusCode := 500
      body := marshalE (handNew ErrCodeUnknown)
      isBase64Encoded := false
      headers := [("Content-Type", "application/json; charset=utf-8")] }

/-- The `net/http.ResponseWriter` state: the committed status (if a header
has been written) and the accumulated body. -/
structure ResponseWriter where
  status : Option Nat := none
  body : String := ""
deriving DecidableEq

/-- A fresh response writer: nothing committed yet. -/
def emptyW : ResponseWriter := {}

/-- Model of `w.WriteHeader(s)`: commits the status; per `net/http`, a second
call is superfluous and ignored. -/
def writeHeader (w : ResponseWriter) (s : Nat) : ResponseWriter :=
  match w.status with
  | some _ => w
  | none => { w with status := some s }

/-- Model of `w.Write(b)`: appends to the body; per `net/http`, an implicit
`WriteHeader(200)` happens first if no header was written. -/
def write (w : ResponseWriter) (b : String) : ResponseWriter :=
  let w :=
    match w.status with
    | none => { w with status := some 200 }
    | some _ => w
  { w with body := w.body ++ b }

/-- Model of `net/http`'s `http.Error(w, msg, status)`: plain-text body `msg`
plus a trailing newline, with the given status. -/
def httpError (w : ResponseWriter) (msg : String) (status : Nat) :
    ResponseWriter :=
  write (writeHeader w status) (msg ++ "\n")

/-- The status chosen by the `switch handErr.Code` in `sendHTTPError`
(`devserver.go` lines 188-208); textually the same arms as the API
Gateway switch, embedded separately from its own source. -/
def sendHTTPStatusOf (code : String) : Nat :=
  if code = ErrCodeBadRequest ∨ code = ErrCodeInvalidBody
      ∨ code = ErrCodeSchemaFailure ∨ code = ErrCodeMissingBody then
    400
  else if code = ErrCodeForbidden then
    403
  else if code = ErrCodeNoAuthentication
      ∨ code = ErrCodeInvalidAuthentication then
    401
  else
    500

/-- Embedding of `sendHTTPError` (`devserver.go` lines 180-217): a non-`hand.E` error
is first replaced by `hand.New(ErrCodeUnknown)`; the status comes from
the code switch; the serialized error is written as the body
(serializing a `hand.E` never fails, so the fallback body of the source
is unreachable in the model). -/
def sendHTTPError (w : ResponseWriter) (err : GoErr) : ResponseWriter :=
  let handErr :=
    match err with
    | .handE e => e
    | .plain _ => handNew ErrCodeUnknown
  let status := sendHTTPStatusOf handErr.code
  let body := marshalE handErr
  write (writeHeader w status) body

/-- An RPC method as the adapters consume it: `Invoke(ctx, body)` yields
a result value (`nil`-able, of the handler's result type `Res`) and an
error. The context argument is not inspected by any embedded branch and
is omitted. -/
structure MethodModel (Res : Type) where
  invoke : String → Option Res × Option GoErr

/-- Modelled from the spec: the identity-provider hook type of the
`rpcservice` package (not under `src/`), the spec's
`(context, claims) -> context_or_error`: its outcome carries the
(possibly augmented) context's claims and a possible classified error.
The API Gateway call site binds only the error; the dev-server call
site binds only the context. -/
structure ProviderOutcome where
  ctxClaims : Option Claims := none
  err : Option GoErr := none

/-- The authorizer-handling prefix of the API Gateway wrapper
(`wrap_api_gateway_http.go` lines 28-44): when an authorizer payload is
present, the identity is extracted (the extraction's error branch being
dead, since `createAuthIdentity` never fails) and the configured
identity provider may fail the call; `some res` is an early error
return, `none` means the request proceeds. -/
def authorizerGate (identityProvider : Option (Claims → ProviderOutcome))
    (authorizer : Option (List (String × GoVal))) :
    Option APIGatewayProxyResponse :=
  match authorizer with
  | none => none
  | some authdata =>
    match createAuthIdentity authdata with
    | (_, some e) => some (apiGatewayErrorResponse (.plain e))
    | (identity, none) =>
      match identityProvider with
      | none => none
      | some provider =>
        match (provider identity).err with
        | some err => some (apiGatewayErrorResponse err)
        | none => none

/-- The `events.APIGatewayProxyRequest` fields consumed by the wrapper: the
authorizer payload (`RequestContext.Authorizer`, a nil-able
`map[string]interface{}`), the path parameters, and the body. -/
structure APIGatewayProxyRequest where
  authorizer : Option (List (String × GoVal)) := none
  pathParameters : List (String × String) := []
  body : String := ""

/-- Go map lookup on `map[string]string` path parameters. -/
def lookupStr (m : List (String × String)) (k : String) : Option String :=
  match m with
  | [] => none
  | (k1, v) :: rest => if k1 = k then some v else lookupStr rest k

/-- The handler returned by `Service.WrapAPIGatewayHTTP`
(`wrap_api_gateway_http.go` lines 23-90): authorizer gate, then path
parameter and method lookup (each failure rendering a
`method_not_found` classified error), then `Invoke`; an invocation
error is rendered by `apiGatewayErrorResponse`, a nil result yields
204 with empty body, and otherwise the result is JSON-marshalled
(failure rendering the plain marshal error) into a 200 response.
`marshal` stands for `json.Marshal` on the handler's result type. -/
def wrapAPIGatewayHTTP {Res : Type} (marshal : Res → Except String String)
    (identityProvider : Option (Claims → ProviderOutcome))
    (getMethod : String → Option (MethodModel Res))
    (event : APIGatewayProxyRequest) : APIGatewayProxyResponse :=
  match authorizerGate identityProvider event.authorizer with
  | some res => res
  | none =>
    if event.pathParameters.length < 1 then
      apiGatewayErrorResponse (.handE (handNew "method_not_found"))
    else
      match lookupStr event.pathParameters "method" with
      | none => apiGatewayErrorResponse (.handE (handNew "method_not_found"))
      | some methodName =>
        match getMethod methodName with
        | none =>
          apiGatewayErrorResponse (.handE (handNew "method_not_found"))
        | some handler =>
          match handler.invoke event.body with
          | (_, some err) => apiGatewayErrorResponse err
          | (none, none) =>
            { statusCode := 204
              body := ""
              isBase64Encoded := false
              headers := [] }
          | (some result, none) =>
            match marshal result with
            | .error t => apiGatewayErrorResponse (.plain t)
            | .ok resBytes =>
              { statusCode := 200
                body := resBytes
                isBase64Encoded := false
                headers :=
                  [("Content-Type", "application/json; charset=utf-8")] }

/-- The state of an inbound dev-server request body: `r.Body == nil`,
a failing `ioutil.ReadAll`, or the read content. -/
inductive BodyState where
  | nilBody
  | readError
  | content (body : String)

/-- Embedding of `wrapRPCMethod` (`devserver.go` lines 130-167): a nil body yields
`http.Error` with the MissingBody code as plain text and 400; a read
failure sends an InvalidBody classified error; an invocation error is
sent through `sendHTTPError`; a nil result writes 204; otherwise the
result is marshalled — on marshal failure the source sends the Unknown
error but lacks a `return`, so execution falls through to the
(superfluous, ignored) 200 header write and a `Write` of the nil byte
slice. -/
def wrapRPCMethod {Res : Type} (marshal : Res → Except String String)
    (method : MethodModel Res) (req : BodyState) (w : ResponseWriter) :
    ResponseWriter :=
  match req with
  | .nilBody => httpError w ErrCodeMissingBody 400
  | .readError => sendHTTPError w (.handE (handNew ErrCodeInvalidBody))
  | .content body =>
    match method.invoke body with
    | (_, some err) => sendHTTPError w err
    | (none, none) => writeHeader w 204
    | (some result, none) =>
      match marshal result with
      | .error _ =>
        let w := sendHTTPError w (.handE (handNew ErrCodeUnknown))
        let w := writeHeader w 200
        write w ""
      | .ok resBytes =>
        let w := writeHeader w 200
        write w resBytes

/-- A dev-server request as the authentication middleware sees it: the
HTTP method, the `authorization` header (`""` when absent), and the
claims carried by the request context (set by the middleware before
forwarding). -/
structure DevRequest where
  httpMethod : String
  authHeader : String := ""
  ctxClaims : Option Claims := none

/-- Embedding of `newAuthenticationMiddleware` (`devserver.go` lines 94-128): OPTIONS
requests are forwarded untouched; an empty authorization header sends an
`authentication_required` error; an authenticator failure sends that
error; then the identity provider is called for the augmented context —
the source's subsequent `if err != nil` re-checks the authenticator's
error, which is nil on this path, so the `authentication_error` branch
is unreachable and the request is always forwarded to `next`. -/
def authMiddleware (authenticate : String → Except GoErr Claims)
    (identityProvider : Claims → ProviderOutcome)
    (next : DevRequest → ResponseWriter → ResponseWriter)
    (r : DevRequest) (w : ResponseWriter) : ResponseWriter :=
  if r.httpMethod = "OPTIONS" then
    next r w
  else
    let token := r.authHeader
    if token = "" then
      sendHTTPError w (.handE (handNew "authentication_required"))
    else
      match authenticate token with
      | .error err => sendHTTPError w err
      | .ok claims =>
        let pres := identityProvider claims
        next { r with ctxClaims := pres.ctxClaims } w

/-! ## Helper lemmas -/

theorem createAuthIdentity_none (authdata : List (String × GoVal))
    (h : asMap (lookupVal authdata "claims") = none) :
    createAuthIdentity authdata = ({}, none) := by
  unfold createAuthIdentity
  rw [h]

theorem createAuthIdentity_some (authdata cm : List (String × GoVal))
    (h : asMap (lookupVal authdata "claims") = some cm) :
    createAuthIdentity authdata =
      ({ id := (asString (lookupVal cm "jti")).getD ""
         version := (asString (lookupVal cm "v")).getD ""
         issuer := (asString (lookupVal cm "iss")).getD ""
         subject := (asString (lookupVal cm "sub")).getD ""
         audience :=
           match asString (lookupVal cm "aud") with
           | some aud => goSplit (goTrim aud "[]") ' '
           | none => []
         scopes :=
           match asList (lookupVal authdata "scopes") with
           | some scopes =>
             scopes.filterMap fun sc =>
               match sc with
               | .vStr scStr => some scStr
               | _ => none
           | none => [] }, none) := by
  unfold createAuthIdentity
  rw [h]
  dsimp only
  cases asString (lookupVal cm "jti") <;>
    cases asString (lookupVal cm "v") <;>
    cases asString (lookupVal cm "iss") <;>
    cases asString (lookupVal cm "sub") <;>
    cases asString (lookupVal cm "aud") <;>
    cases asList (lookupVal authdata "scopes") <;>
    rfl

theorem splitOnChar_of_not_mem (sep : Char) (l : List Char) (h : sep ∉ l) :
    splitOnChar sep l = [l] := by
  induction l with
  | nil => rfl
  | cons c rest ih =>
    simp only [List.mem_cons, not_or] at h
    rw [splitOnChar, ih h.2]
    dsimp only
    rw [if_neg (fun hc => h.1 hc.symm)]

theorem mem_of_mem_trimCutset {c : Char} {cut l : List Char}
    (h : c ∈ trimCutset cut l) : c ∈ l := by
  unfold trimCutset at h
  rw [List.mem_reverse] at h
  have h2 := (List.dropWhile_sublist _).mem h
  rw [List.mem_reverse] at h2
  exact (List.dropWhile_sublist _).mem h2

/-- Whether a response body begins with a JSON object opening and a
`"code"` key — the shape every serialized classified error starts
with. -/
def hasCodeField (s : String) : Bool :=
  List.isPrefixOf "\x7b\"code\":".data s.data

/-- The classified error actually serialized for a boundary error: a
`hand.E` passes through, anything else becomes `hand.New(ErrCodeUnknown)`
(the common coercion of both renderers). -/
def coerceHand : GoErr → E
  | .handE e => e
  | .plain _ => handNew ErrCodeUnknown

theorem lookupStr_ne_nil {m : List (String × String)} {k v : String}
    (h : lookupStr m k = some v) : ¬ m.length < 1 := by
  cases m with
  | nil => simp [lookupStr] at h
  | cons p rest => simp

/-! ## Claim theorems -/

/-- Claim C1: the error-to-status mapping is a pure function of the
classified error's code — BadRequest, InvalidBody, SchemaFailure and
MissingBody map to 400; Forbidden to 403; NoAuthentication and
InvalidAuthentication to 401; every other code (application-defined or
unclassified included) to 500 — and the API Gateway adapter and the dev
server adapter compute the same status for the same code. -/
theorem error_status_mapping_pure :
    (∀ c, c = ErrCodeBadRequest ∨ c = ErrCodeInvalidBody
        ∨ c = ErrCodeSchemaFailure ∨ c = ErrCodeMissingBody →
      apiGatewayStatusOf c = 400) ∧
    apiGatewayStatusOf ErrCodeForbidden = 403 ∧
    (∀ c, c = ErrCodeNoAuthentication ∨ c = ErrCodeInvalidAuthentication →
      apiGatewayStatusOf c = 401) ∧
    (∀ c, c ≠ ErrCodeBadRequest → c ≠ ErrCodeInvalidBody →
      c ≠ ErrCodeSchemaFailure → c ≠ ErrCodeMissingBody →
      c ≠ ErrCodeForbidden → c ≠ ErrCodeNoAuthentication →
      c ≠ ErrCodeInvalidAuthentication → apiGatewayStatusOf c = 500) ∧
    (∀ e : E, (apiGatewayErrorResponse (.handE e)).statusCode
      = apiGatewayStatusOf e.code) ∧
    (∀ e : E, (sendHTTPError emptyW (.handE e)).status
      = some (sendHTTPStatusOf e.code)) ∧
    (∀ t, (apiGatewayErrorResponse (.plain t)).statusCode = 500
      ∧ (sendHTTPError emptyW (.plain t)).status = some 500) ∧
    (∀ c, apiGatewayStatusOf c = sendHTTPStatusOf c) := by
  refine ⟨?_, by decide, ?_, ?_, fun e => rfl, fun e => rfl,
    fun t => ⟨rfl, rfl⟩, fun c => rfl⟩
  · intro c h
    rcases h with h | h | h | h <;> subst h <;> decide
  · intro c h
    rcases h with h | h <;> subst h <;> decide
  · intro c h1 h2 h3 h4 h5 h6 h7
    simp [apiGatewayStatusOf, h1, h2, h3, h4, h5, h6, h7]

/-- Witness for C1: the mapping evaluated at a taxonomy member of each
status class and at a synthetic application-defined code. -/
theorem error_status_mapping_pure_witness :
    apiGatewayStatusOf ErrCodeSchemaFailure = 400 ∧
    apiGatewayStatusOf ErrCodeInvalidAuthentication = 401 ∧
    apiGatewayStatusOf "some_app_code" = 500 :=
  ⟨error_status_mapping_pure.1 ErrCodeSchemaFailure
      (Or.inr (Or.inr (Or.inl rfl))),
   error_status_mapping_pure.2.2.1 ErrCodeInvalidAuthentication (Or.inr rfl),
   error_status_mapping_pure.2.2.2.1 "some_app_code" (by decide) (by decide)
      (by decide) (by decide) (by decide) (by decide) (by decide)⟩

/-- Claim C2: any error that is not a classified `hand.E` is replaced by
both renderers with the generic Unknown classified error at status 500;
the serialized body is the fixed Unknown-error JSON, independent of the
original error's text. -/
theorem unclassified_error_coerced (t : String) :
    apiGatewayErrorResponse (.plain t) =
      { statusCode := 500, body := "\x7b\"code\":\"unknown\"\x7d",
        isBase64Encoded := false,
        headers := [("Content-Type", "application/json; charset=utf-8")] } ∧
    sendHTTPError emptyW (.plain t) =
      { status := some 500, body := "\x7b\"code\":\"unknown\"\x7d" } :=
  ⟨rfl, rfl⟩

/-- Claim C3: identity-claims extraction is total and never fails — for
every authorizer payload `createAuthIdentity` returns a claims record
with a nil error, and an absent or wrongly-typed `claims` entry, claim
field, or `scopes` entry leaves the corresponding field at its
zero-value default. -/
theorem identity_extraction_total_defaults (authdata : List (String × GoVal)) :
    (createAuthIdentity authdata).2 = none ∧
    (asMap (lookupVal authdata "claims") = none →
      (createAuthIdentity authdata).1 = {}) ∧
    ∀ cm, asMap (lookupVal authdata "claims") = some cm →
      (asString (lookupVal cm "jti") = none →
        (createAuthIdentity authdata).1.id = "") ∧
      (asString (lookupVal cm "v") = none →
        (createAuthIdentity authdata).1.version = "") ∧
      (asString (lookupVal cm "iss") = none →
        (createAuthIdentity authdata).1.issuer = "") ∧
      (asString (lookupVal cm "sub") = none →
        (createAuthIdentity authdata).1.subject = "") ∧
      (asString (lookupVal cm "aud") = none →
        (createAuthIdentity authdata).1.audience = []) ∧
      (asList (lookupVal authdata "scopes") = none →
        (createAuthIdentity authdata).1.scopes = []) := by
  refine ⟨?_, ?_, ?_⟩
  · cases h : asMap (lookupVal authdata "claims") with
    | none => rw [createAuthIdentity_none authdata h]
    | some cm => rw [createAuthIdentity_some authdata cm h]
  · intro h
    rw [createAuthIdentity_none authdata h]
  · intro cm h
    rw [createAuthIdentity_some authdata cm h]
    refine ⟨fun hj => ?_, fun hv => ?_, fun hi => ?_, fun hs => ?_,
      fun ha => ?_, fun hsc => ?_⟩ <;> simp_all

/-- Witness for C3: a payload whose `claims` entry is not a map yields
the all-default record with a nil error, and a wrongly-typed `sub`
claim leaves the subject empty. -/
theorem identity_extraction_total_defaults_witness :
    (createAuthIdentity [("claims", GoVal.vStr "nope")]).1 = {} ∧
    (createAuthIdentity [("claims", GoVal.vStr "nope")]).2 = none ∧
    (createAuthIdentity [("claims", GoVal.vMap [("sub", GoVal.vNum 5)])]).1.subject
      = "" :=
  ⟨(identity_extraction_total_defaults [("claims", GoVal.vStr "nope")]).2.1 rfl,
   (identity_extraction_total_defaults [("claims", GoVal.vStr "nope")]).1,
   ((identity_extraction_total_defaults
        [("claims", GoVal.vMap [("sub", GoVal.vNum 5)])]).2.2
      [("sub", GoVal.vNum 5)] rfl).2.2.2.1 rfl⟩

/-- Claim C4: on the authorizer payload
`\x7b"claims": \x7b"sub": "u1", "aud": "[a b]"\x7d, "scopes": ["read", "write"]\x7d`
the extraction yields subject `u1`, audience `["a", "b"]` (the
bracket-delimited space-separated audience is split into its elements)
and scopes `["read", "write"]` in order; a space-free scalar audience
string yields the one-element list of its bracket-trimmed self; and
non-string entries of the scopes sequence are silently skipped. -/
theorem concrete_identity_extraction :
    createAuthIdentity
        [("claims", GoVal.vMap [("sub", GoVal.vStr "u1"),
            ("aud", GoVal.vStr "[a b]")]),
         ("scopes", GoVal.vList [GoVal.vStr "read", GoVal.vStr "write"])] =
      ({ subject := "u1", audience := ["a", "b"],
         scopes := ["read", "write"] }, none) ∧
    (∀ aud : String, ' ' ∉ aud.toList →
      (createAuthIdentity
          [("claims", GoVal.vMap [("aud", GoVal.vStr aud)])]).1.audience
        = [goTrim aud "[]"]) ∧
    (createAuthIdentity
        [("claims", GoVal.vMap []),
         ("scopes", GoVal.vList [GoVal.vStr "read", GoVal.vNum 3,
            GoVal.vStr "write"])]).1.scopes
      = ["read", "write"] := by
  refine ⟨by decide, ?_, by decide⟩
  intro aud h
  have h2 : ' ' ∉ trimCutset "[]".toList aud.toList :=
    fun hc => h (mem_of_mem_trimCutset hc)
  show List.map String.mk (splitOnChar ' ' (trimCutset "[]".toList aud.toList))
    = [String.mk (trimCutset "[]".toList aud.toList)]
  rw [splitOnChar_of_not_mem _ _ h2]
  rfl

/-- Witness for C4: a space-free scalar audience string yields a
one-element audience list. -/
theorem concrete_identity_extraction_witness :
    (createAuthIdentity
        [("claims", GoVal.vMap [("aud", GoVal.vStr "solo")])]).1.audience
      = ["solo"] := by
  have h := concrete_identity_extraction.2.1 "solo" (by decide)
  rw [h]
  decide

/-- Claim C9: when the claims map an `aud` key to the empty string, the
extracted audience is the one-element list `[""]`; only an absent or
non-string `aud` claim leaves the audience at its empty default. -/
theorem empty_aud_singleton (authdata cm : List (String × GoVal))
    (h : asMap (lookupVal authdata "claims") = some cm) :
    (asString (lookupVal cm "aud") = some "" →
      (createAuthIdentity authdata).1.audience = [""]) ∧
    (asString (lookupVal cm "aud") = none →
      (createAuthIdentity authdata).1.audience = []) := by
  rw [createAuthIdentity_some authdata cm h]
  constructor
  · intro ha
    rw [ha]
    show goSplit (goTrim "" "[]") ' ' = [""]
    decide
  · intro ha
    rw [ha]

/-- Witness for C9: the concrete payload with an empty-string `aud`
claim yields audience `[""]`. -/
theorem empty_aud_singleton_witness :
    (createAuthIdentity [("claims", GoVal.vMap [("aud", GoVal.vStr "")])]).1.audience
      = [""] :=
  (empty_aud_singleton [("claims", GoVal.vMap [("aud", GoVal.vStr "")])]
    [("aud", GoVal.vStr "")] rfl).1 rfl

/-- Claim C5: when JSON-encoding of a non-nil handler result fails, both
adapters respond with exactly the classified Unknown-class error
response — status 500 with the serialized Unknown error body — and no
success status or success body; in the dev server the missing `return`
after `sendHTTPError` is masked because the superfluous 200 header
write is ignored and the nil marshal output appends nothing. -/
theorem marshal_failure_unknown_response {Res : Type}
    (marshal : Res → Except String String)
    (getMethod : String → Option (MethodModel Res))
    (method : MethodModel Res) (event : APIGatewayProxyRequest)
    (mn t : String) (result : Res)
    (hauth : authorizerGate none event.authorizer = none)
    (hmn : lookupStr event.pathParameters "method" = some mn)
    (hg : getMethod mn = some method)
    (hinv : method.invoke event.body = (some result, none))
    (hm : marshal result = .error t) :
    wrapAPIGatewayHTTP marshal none getMethod event =
      { statusCode := 500, body := marshalE (handNew ErrCodeUnknown),
        isBase64Encoded := false,
        headers := [("Content-Type", "application/json; charset=utf-8")] } ∧
    wrapRPCMethod marshal method (.content event.body) emptyW =
      { status := some 500, body := marshalE (handNew ErrCodeUnknown) } := by
  constructor
  · unfold wrapAPIGatewayHTTP
    rw [hauth]
    dsimp only
    rw [if_neg (lookupStr_ne_nil hmn), hmn]
    dsimp only
    rw [hg]
    dsimp only
    rw [hinv]
    dsimp only
    rw [hm]
    rfl
  · unfold wrapRPCMethod
    dsimp only
    rw [hinv]
    dsimp only
    rw [hm]
    show write (writeHeader (sendHTTPError emptyW
        (GoErr.handE (handNew ErrCodeUnknown))) 200) "" =
      { status := some 500, body := marshalE (handNew ErrCodeUnknown) }
    decide

/-- Witness for C5: a concrete method whose non-nil result fails to
marshal yields the Unknown error response on both adapters. -/
theorem marshal_failure_unknown_response_witness :
    wrapAPIGatewayHTTP (fun _ : Unit => Except.error "cycle") none
        (fun _ => some ⟨fun _ => (some (), none)⟩)
        { authorizer := none, pathParameters := [("method", "m")],
          body := "" } =
      { statusCode := 500, body := marshalE (handNew ErrCodeUnknown),
        isBase64Encoded := false,
        headers := [("Content-Type", "application/json; charset=utf-8")] } ∧
    wrapRPCMethod (fun _ : Unit => Except.error "cycle")
        ⟨fun _ => (some (), none)⟩ (.content "") emptyW =
      { status := some 500, body := marshalE (handNew ErrCodeUnknown) } :=
  marshal_failure_unknown_response (fun _ : Unit => Except.error "cycle")
    (fun _ => some ⟨fun _ => (some (), none)⟩) ⟨fun _ => (some (), none)⟩
    { authorizer := none, pathParameters := [("method", "m")], body := "" }
    "m" "cycle" () rfl rfl rfl rfl rfl

/-- Counterexample to claim C6 as stated: the dev server's
missing-request-body branch responds through `http.Error` with the
plain-text body `missing_body` plus a newline — not a JSON object with
a `code` field. -/
theorem plain_text_missing_body_counterexample :
    wrapRPCMethod (fun _ : Unit => Except.ok "") ⟨fun _ => (none, none)⟩
        BodyState.nilBody emptyW =
      { status := some 400, body := "missing_body\n" } ∧
    hasCodeField "missing_body\n" = false := by
  decide

/-- Claim C6 (amended): every failing invocation through either adapter
takes its status from the error-to-status mapping of the serialized
classified error and — for every branch except the dev server's
missing-request-body branch — carries a JSON body opening with the
`code` field; the missing-request-body branch responds 400 with the
plain-text MissingBody code. -/
theorem failure_body_json_with_code :
    (∀ err, apiGatewayErrorResponse err =
      { statusCode := apiGatewayStatusOf (coerceHand err).code,
        body := marshalE (coerceHand err), isBase64Encoded := false,
        headers := [("Content-Type", "application/json; charset=utf-8")] }) ∧
    (∀ err, sendHTTPError emptyW err =
      { status := some (sendHTTPStatusOf (coerceHand err).code),
        body := marshalE (coerceHand err) }) ∧
    (∀ e : E, hasCodeField (marshalE e) = true) ∧
    (∀ (Res : Type) (marshal : Res → Except String String)
        (method : MethodModel Res),
      wrapRPCMethod marshal method BodyState.nilBody emptyW =
        { status := some 400, body := ErrCodeMissingBody ++ "\n" }) := by
  refine ⟨?_, ?_, fun e => rfl, fun Res marshal method => rfl⟩
  · intro err
    cases err with
    | handE e => rfl
    | plain t => rfl
  · intro err
    cases err with
    | handE e => rfl
    | plain t => rfl

/-- Claim C7: a nil result with a nil error from `Invoke` makes both
adapters signal no content — status 204 with an empty body, with no
JSON encoding attempted (the conclusion holds for every `marshal`). -/
theorem nil_result_no_content {Res : Type}
    (marshal : Res → Except String String)
    (ip : Option (Claims → ProviderOutcome))
    (getMethod : String → Option (MethodModel Res))
    (method : MethodModel Res) (event : APIGatewayProxyRequest)
    (mn : String)
    (hauth : authorizerGate ip event.authorizer = none)
    (hmn : lookupStr event.pathParameters "method" = some mn)
    (hg : getMethod mn = some method)
    (hinv : method.invoke event.body = (none, none)) :
    wrapAPIGatewayHTTP marshal ip getMethod event =
      { statusCode := 204, body := "", isBase64Encoded := false,
        headers := [] } ∧
    wrapRPCMethod marshal method (.content event.body) emptyW =
      { status := some 204, body := "" } := by
  constructor
  · unfold wrapAPIGatewayHTTP
    rw [hauth]
    dsimp only
    rw [if_neg (lookupStr_ne_nil hmn), hmn]
    dsimp only
    rw [hg]
    dsimp only
    rw [hinv]
  · unfold wrapRPCMethod
    dsimp only
    rw [hinv]
    rfl

/-- Witness for C7: a concrete `ping`-style method returning neither
result nor error yields 204 with an empty body on both adapters. -/
theorem nil_result_no_content_witness :
    wrapAPIGatewayHTTP (fun s : String => Except.ok s) none
        (fun _ => some ⟨fun _ => (none, none)⟩)
        { authorizer := none, pathParameters := [("method", "ping")],
          body := "" } =
      { statusCode := 204, body := "", isBase64Encoded := false,
        headers := [] } ∧
    wrapRPCMethod (fun s : String => Except.ok s) ⟨fun _ => (none, none)⟩
        (.content "") emptyW =
      { status := some 204, body := "" } :=
  nil_result_no_content (fun s : String => Except.ok s) none
    (fun _ => some ⟨fun _ => (none, none)⟩) ⟨fun _ => (none, none)⟩
    { authorizer := none, pathParameters := [("method", "ping")], body := "" }
    "ping" rfl rfl rfl rfl

/-- Claim C8, evaluated at the failing input: with the same
identity-provider hook rejecting the identity with a Forbidden
classified error, the API Gateway adapter renders that error without
reaching the method, but the dev server's authentication middleware —
whose error check after the provider call re-reads the authenticator's
(nil) error — forwards the request and the handler runs, producing a
200 handler response instead of the provider's error response. -/
theorem devserver_provider_error_ignored :
    authMiddleware (fun _ => .ok {})
      (fun c => { ctxClaims := some c,
                  err := some (.handE (handNew ErrCodeForbidden)) })
      (fun _ w => write w "handler-ran")
      { httpMethod := "POST", authHeader := "Bearer t" } emptyW =
      { status := some 200, body := "handler-ran" } ∧
    wrapAPIGatewayHTTP (fun s : String => .ok s)
      (some (fun c => { ctxClaims := some c,
                        err := some (.handE (handNew ErrCodeForbidden)) }))
      (fun _ => some ⟨fun _ => (some "ok", none)⟩)
      { authorizer := some [], pathParameters := [("method", "m")],
        body := "" } =
      apiGatewayErrorResponse (.handE (handNew ErrCodeForbidden)) := by
  exact ⟨rfl, rfl⟩

/-- Claim C10: an OPTIONS request on an authenticated dev-server route
is forwarded unchanged to the next handler, for every authenticator and
identity provider (neither is consulted and the authorization header is
not read). -/
theorem options_bypasses_authentication
    (authenticate : String → Except GoErr Claims)
    (identityProvider : Claims → ProviderOutcome)
    (next : DevRequest → ResponseWriter → ResponseWriter)
    (r : DevRequest) (w : ResponseWriter) (h : r.httpMethod = "OPTIONS") :
    authMiddleware authenticate identityProvider next r w = next r w := by
  unfold authMiddleware
  rw [if_pos h]

/-- Witness for C10: a concrete OPTIONS request reaches the next handler
untouched even with an authenticator that would reject it. -/
theorem options_bypasses_authentication_witness :
    authMiddleware (fun _ => .error (.handE (handNew ErrCodeInvalidToken)))
      (fun c => { ctxClaims := some c })
      (fun _ w => writeHeader w 204)
      { httpMethod := "OPTIONS" } emptyW =
      { status := some 204, body := "" } := by
  have h := options_bypasses_authentication
    (fun _ => .error (.handE (handNew ErrCodeInvalidToken)))
    (fun c => { ctxClaims := some c })
    (fun _ w => writeHeader w 204)
    { httpMethod := "OPTIONS" } emptyW rfl
  rw [h]
  rfl

end Runtime
